import Mathlib

/-!
Verification of the gokart convenience-wrapper toolkit (Go) against its
natural-language specification, via a shallow embedding in Lean 4.

Modelled components:
* the SQLite and PostgreSQL `Transaction` wrappers (sqlite package and
  postgres package, function `Transaction`);
* the Redis `Cache.Remember` get-or-compute helper (cache.go);
* the CLI scaffolding template walker `Apply`;
* the JSON state persistence helpers `SaveState` / `LoadState`.

Go `error` values are modelled by the inductive `GoError`; fallible Go
calls return `Except GoError α`; external effects (the database, the
Redis store, the filesystem) are threaded as explicit state.
-/

/-- Model of a Go `error` value.  `redisNil` is the sentinel `redis.Nil`
(a cache miss), `errNotExist` is the sentinel `os.ErrNotExist`,
`simple m` is an error with message `m` and no wrapped error, and
`wrapf m inner` is the result of `fmt.Errorf` with a `%w` verb: message
`m`, wrapping `inner`. -/
inductive GoError where
  | redisNil : GoError
  | errNotExist : GoError
  | simple (m : String) : GoError
  | wrapf (m : String) (inner : GoError) : GoError
deriving DecidableEq, Repr

/-- The `Error()` message of a `GoError`. -/
def GoError.message : GoError → String
  | .redisNil => "redis: nil"
  | .errNotExist => "file does not exist"
  | .simple m => m
  | .wrapf m _ => m

/-- Go `errors.Unwrap`: only `fmt.Errorf`-with-`%w` errors unwrap. -/
def GoError.unwrap : GoError → Option GoError
  | .wrapf _ inner => some inner
  | _ => none

/-- Go `errors.Is`: walk the unwrap chain looking for `target`. -/
def GoError.is : GoError → GoError → Bool
  | e, target =>
    decide (e = target) ||
      match e with
      | .wrapf _ inner => inner.is target
      | _ => false

/-!
## Transaction wrappers (sqlite and postgres packages)

Both packages expose `Transaction(ctx, handle, fn)`:

    tx, err := begin()
    if err != nil { return fmt.Errorf("begin transaction: %w", err) }
    defer func() { if p := recover(); p != nil { _ = tx.Rollback(); panic(p) } }()
    if err := fn(tx); err != nil {
        if rbErr := tx.Rollback(); rbErr != nil {
            return fmt.Errorf("rollback failed: %v (original error: %w)", rbErr, err)
        }
        return err
    }
    if err := tx.Commit(); err != nil { return fmt.Errorf("commit transaction: %w", err) }
    return nil

The database is modelled by a store of type `σ`: `persisted` is the
committed data.  The callback `fn` receives the data visible in the
transaction (a snapshot of `persisted`) and either returns normally with
an optional error, or panics; in every case it yields the pending
(uncommitted) data it wrote.  Commit publishes the pending data;
rollback discards it.  `beginErr`, `rollbackErr`, `commitErr` inject the
failures the driver can report at each step. -/

/-- Result of invoking the callback `fn` on the transaction handle:
normal return with no error, normal return with error `e`, or a panic
with payload `p`.  Each carries the pending data written by `fn`. -/
inductive FnRes (σ : Type) where
  | ok (pending : σ)
  | err (e : GoError) (pending : σ)
  | panics (p : String) (pending : σ)
deriving DecidableEq, Repr

/-- A database handle with injectable step failures. -/
structure TxDB (σ : Type) where
  persisted : σ
  beginErr : Option GoError
  rollbackErr : Option GoError
  commitErr : Option GoError
deriving DecidableEq, Repr

/-- Observable outcome of the wrapper: either a normal return carrying
the Go return value (`none` = nil error) or a propagated panic.  Both
record the persisted data afterwards, how many times `fn` was invoked,
and whether the transaction was committed. -/
inductive TxOutcome (σ : Type) where
  | ret (e : Option GoError) (persisted : σ) (fnCalls : Nat) (committed : Bool)
  | panicked (p : String) (persisted : σ) (fnCalls : Nat) (committed : Bool)
deriving DecidableEq, Repr

namespace Sqlite

/-- Shallow embedding of `sqlite.Transaction` (part_006, lines 176-201). -/
def Transaction {σ : Type} (db : TxDB σ) (fn : σ → FnRes σ) : TxOutcome σ :=
  match db.beginErr with
  | some e => .ret (some (.wrapf ("begin transaction: " ++ e.message) e)) db.persisted 0 false
  | none =>
    match fn db.persisted with
    | .panics p _pending =>
      -- deferred recover: `_ = tx.Rollback()` discards pending data, then re-panic
      .panicked p db.persisted 1 false
    | .err e _pending =>
      match db.rollbackErr with
      | some rbErr =>
        .ret (some (.wrapf
          ("rollback failed: " ++ rbErr.message ++ " (original error: " ++ e.message ++ ")") e))
          db.persisted 1 false
      | none => .ret (some e) db.persisted 1 false
    | .ok pending =>
      match db.commitErr with
      | some ce =>
        .ret (some (.wrapf ("commit transaction: " ++ ce.message) ce)) db.persisted 1 false
      | none => .ret none pending 1 true

end Sqlite

namespace Postgres

/-- Shallow embedding of `postgres.Transaction` (lines 457-482); the Go
code is structurally identical to the sqlite variant, differing only in
the driver types (`pgx.Tx` vs `*sql.Tx`). -/
def Transaction {σ : Type} (db : TxDB σ) (fn : σ → FnRes σ) : TxOutcome σ :=
  match db.beginErr with
  | some e => .ret (some (.wrapf ("begin transaction: " ++ e.message) e)) db.persisted 0 false
  | none =>
    match fn db.persisted with
    | .panics p _pending =>
      .panicked p db.persisted 1 false
    | .err e _pending =>
      match db.rollbackErr with
      | some rbErr =>
        .ret (some (.wrapf
          ("rollback failed: " ++ rbErr.message ++ " (original error: " ++ e.message ++ ")") e))
          db.persisted 1 false
      | none => .ret (some e) db.persisted 1 false
    | .ok pending =>
      match db.commitErr with
      | some ce =>
        .ret (some (.wrapf ("commit transaction: " ++ ce.message) ce)) db.persisted 1 false
      | none => .ret none pending 1 true

end Postgres

/-- Claim C1: for every callback that returns no error, both Transaction
wrappers begin a transaction, invoke the callback exactly once, commit,
and return nil, and the callback's writes are persisted (given that
begin and commit themselves succeed). -/
theorem transaction_commits_on_success {σ : Type} (db : TxDB σ) (fn : σ → FnRes σ)
    (pending : σ) (hb : db.beginErr = none) (hc : db.commitErr = none)
    (hfn : fn db.persisted = FnRes.ok pending) :
    Sqlite.Transaction db fn = TxOutcome.ret none pending 1 true ∧
      Postgres.Transaction db fn = TxOutcome.ret none pending 1 true := by
  constructor <;> simp [Sqlite.Transaction, Postgres.Transaction, hb, hc, hfn]

theorem transaction_commits_on_success_witness :
    Sqlite.Transaction ⟨0, none, none, none⟩ (fun s => FnRes.ok (s + 1)) =
        TxOutcome.ret none 1 1 true ∧
      Postgres.Transaction ⟨0, none, none, none⟩ (fun s => FnRes.ok (s + 1)) =
        TxOutcome.ret none 1 1 true :=
  transaction_commits_on_success ⟨0, none, none, none⟩ (fun s => FnRes.ok (s + 1)) 1
    rfl rfl rfl

/-- Claim C2: for every callback returning a non-nil error `e`, both
Transaction wrappers roll back (the callback's pending writes are
discarded, the persisted data is unchanged), never commit, and return
`e` itself, provided the rollback succeeds. -/
theorem transaction_rolls_back_on_error {σ : Type} (db : TxDB σ) (fn : σ → FnRes σ)
    (e : GoError) (pending : σ) (hb : db.beginErr = none) (hr : db.rollbackErr = none)
    (hfn : fn db.persisted = FnRes.err e pending) :
    Sqlite.Transaction db fn = TxOutcome.ret (some e) db.persisted 1 false ∧
      Postgres.Transaction db fn = TxOutcome.ret (some e) db.persisted 1 false := by
  constructor <;> simp [Sqlite.Transaction, Postgres.Transaction, hb, hr, hfn]

theorem transaction_rolls_back_on_error_witness :
    Sqlite.Transaction ⟨7, none, none, none⟩
        (fun s => FnRes.err (GoError.simple "boom") (s + 1)) =
        TxOutcome.ret (some (GoError.simple "boom")) 7 1 false ∧
      Postgres.Transaction ⟨7, none, none, none⟩
        (fun s => FnRes.err (GoError.simple "boom") (s + 1)) =
        TxOutcome.ret (some (GoError.simple "boom")) 7 1 false :=
  transaction_rolls_back_on_error ⟨7, none, none, none⟩
    (fun s => FnRes.err (GoError.simple "boom") (s + 1)) (GoError.simple "boom") 8
    rfl rfl rfl

/-- Claim C3: for every callback that panics, both Transaction wrappers
roll back (pending writes discarded) and re-raise the same panic value;
the transaction is never committed. -/
theorem transaction_repanics {σ : Type} (db : TxDB σ) (fn : σ → FnRes σ)
    (p : String) (pending : σ) (hb : db.beginErr = none)
    (hfn : fn db.persisted = FnRes.panics p pending) :
    Sqlite.Transaction db fn = TxOutcome.panicked p db.persisted 1 false ∧
      Postgres.Transaction db fn = TxOutcome.panicked p db.persisted 1 false := by
  constructor <;> simp [Sqlite.Transaction, Postgres.Transaction, hb, hfn]

theorem transaction_repanics_witness :
    Sqlite.Transaction ⟨3, none, none, none⟩ (fun s => FnRes.panics "oops" (s + 1)) =
        TxOutcome.panicked "oops" 3 1 false ∧
      Postgres.Transaction ⟨3, none, none, none⟩ (fun s => FnRes.panics "oops" (s + 1)) =
        TxOutcome.panicked "oops" 3 1 false :=
  transaction_repanics ⟨3, none, none, none⟩ (fun s => FnRes.panics "oops" (s + 1)) "oops" 4
    rfl rfl

/-- Claim C4: when the callback returns error `e` and the rollback fails
with `rbErr`, both Transaction wrappers return a non-nil error whose
message contains `rbErr`'s message (as a substring) and which wraps `e`
(so neither error is swallowed); the transaction is not committed. -/
theorem transaction_surfaces_rollback_failure {σ : Type} (db : TxDB σ) (fn : σ → FnRes σ)
    (e rbErr : GoError) (pending : σ) (hb : db.beginErr = none)
    (hr : db.rollbackErr = some rbErr) (hfn : fn db.persisted = FnRes.err e pending) :
    ∃ ge : GoError,
      Sqlite.Transaction db fn = TxOutcome.ret (some ge) db.persisted 1 false ∧
      Postgres.Transaction db fn = TxOutcome.ret (some ge) db.persisted 1 false ∧
      ge.unwrap = some e ∧
      ∃ pre suf : String, ge.message = pre ++ rbErr.message ++ suf := by
  refine ⟨GoError.wrapf
    ("rollback failed: " ++ rbErr.message ++ " (original error: " ++ e.message ++ ")") e,
    ?_, ?_, rfl, "rollback failed: ", " (original error: " ++ e.message ++ ")", ?_⟩
  · simp [Sqlite.Transaction, hb, hr, hfn]
  · simp [Postgres.Transaction, hb, hr, hfn]
  · simp [GoError.message, String.append_assoc]

theorem transaction_surfaces_rollback_failure_witness :
    ∃ ge : GoError,
      Sqlite.Transaction ⟨2, none, some (GoError.simple "rb"), none⟩
          (fun s => FnRes.err (GoError.simple "cb") (s + 1)) =
          TxOutcome.ret (some ge) 2 1 false ∧
      Postgres.Transaction ⟨2, none, some (GoError.simple "rb"), none⟩
          (fun s => FnRes.err (GoError.simple "cb") (s + 1)) =
          TxOutcome.ret (some ge) 2 1 false ∧
      ge.unwrap = some (GoError.simple "cb") ∧
      ∃ pre suf : String, ge.message = pre ++ (GoError.simple "rb").message ++ suf :=
  transaction_surfaces_rollback_failure ⟨2, none, some (GoError.simple "rb"), none⟩
    (fun s => FnRes.err (GoError.simple "cb") (s + 1)) (GoError.simple "cb")
    (GoError.simple "rb") 3 rfl rfl rfl

/-!
## Redis cache and `Cache.Remember` (cache.go)

The Redis store is modelled as an association list from (prefixed) keys
to a stored string value together with the TTL it was set with (Go
`time.Duration`, an `Int` of nanoseconds).  `getFault` injects a
non-`redis.Nil` read failure of the client (a genuine client error can
never be the `redis.Nil` sentinel, which the client reports exactly when
the key is absent); `setFault` injects a write failure. -/

/-- State of the modelled Redis server/client. -/
structure RedisState where
  store : List (String × String × Int)
  getFault : Option String
  setFault : Option GoError
deriving DecidableEq, Repr

/-- Model of `client.Get(ctx, k).Result()`: a fault if one is injected,
otherwise the stored value, otherwise the `redis.Nil` miss sentinel. -/
def RedisState.get (st : RedisState) (k : String) : Except GoError String :=
  match st.getFault with
  | some m => .error (.simple m)
  | none =>
    match st.store.lookup k with
    | some (v, _) => .ok v
    | none => .error .redisNil

/-- Model of `client.Set(ctx, k, v, ttl).Err()`: a fault if one is
injected, otherwise store `(k, v, ttl)` (most recent binding first). -/
def RedisState.set (st : RedisState) (k v : String) (ttl : Int) :
    Except GoError RedisState :=
  match st.setFault with
  | some e => .error e
  | none => .ok { st with store := (k, v, ttl) :: st.store }

/-- The `Cache` wrapper: only its key prefix matters to the model
(the `client` field is the explicit `RedisState`). -/
structure Cache where
  pfx : String
deriving DecidableEq, Repr

/-- `Cache.key` (cache.go line 157): prefix the key when configured. -/
def Cache.key (c : Cache) (k : String) : String :=
  if c.pfx != "" then c.pfx ++ k else k

/-- `Cache.Get` (cache.go line 165). -/
def Cache.Get (c : Cache) (st : RedisState) (k : String) : Except GoError String :=
  st.get (c.key k)

/-- `Cache.Set` (cache.go line 170). -/
def Cache.Set (c : Cache) (st : RedisState) (k v : String) (ttl : Int) :
    Except GoError RedisState :=
  st.set (c.key k) v ttl

/-- A Go `interface{}` value as returned by the compute callback, as far
as `Remember`'s type switch can observe it: a `string`, a `[]byte`
(carried as the string its bytes spell), or any other value carried
together with the result of `json.Marshal` on it. -/
inductive GoVal where
  | str (s : String)
  | bytes (s : String)
  | other (jsonRes : Except GoError String)
deriving Repr

/-- The type switch in `Cache.Remember` (cache.go lines 253-265):
strings and byte slices verbatim, everything else JSON-marshalled. -/
def serializeResult : GoVal → Except GoError String
  | .str s => .ok s
  | .bytes s => .ok s
  | .other (.ok data) => .ok data
  | .other (.error e) => .error (.wrapf ("failed to marshal result: " ++ e.message) e)

/-- Shallow embedding of `Cache.Remember` (cache.go lines 239-272).  The
zero-argument compute callback is a value `fn : Except GoError GoVal`
(its single possible invocation's outcome).  Returns the Go return
value, the Redis state afterwards, and how many times `fn` was invoked. -/
def Cache.Remember (c : Cache) (st : RedisState) (k : String) (ttl : Int)
    (fn : Except GoError GoVal) : Except GoError String × RedisState × Nat :=
  match c.Get st k with
  | .ok val => (.ok val, st, 0)
  | .error err =>
    if err != GoError.redisNil then (.error err, st, 0)
    else
      match fn with
      | .error e => (.error e, st, 1)
      | .ok result =>
        match serializeResult result with
        | .error e => (.error e, st, 1)
        | .ok strVal =>
          match c.Set st k strVal ttl with
          | .error e => (.error e, st, 1)
          | .ok st2 => (.ok strVal, st2, 1)

/-- Claim C5: on a cache hit, `Remember` returns the stored value with a
nil error, leaves the store untouched, and never invokes the compute
callback. -/
theorem remember_hit_skips_fn (c : Cache) (st : RedisState) (k : String) (ttl : Int)
    (fn : Except GoError GoVal) (val : String) (hget : c.Get st k = .ok val) :
    c.Remember st k ttl fn = (.ok val, st, 0) := by
  simp [Cache.Remember, hget]

theorem remember_hit_skips_fn_witness :
    Cache.Remember ⟨""⟩ ⟨[("user:1", "alice", 60)], none, none⟩ "user:1" 60
        (.ok (GoVal.str "bob")) =
      (.ok "alice", ⟨[("user:1", "alice", 60)], none, none⟩, 0) :=
  remember_hit_skips_fn ⟨""⟩ ⟨[("user:1", "alice", 60)], none, none⟩ "user:1" 60
    (.ok (GoVal.str "bob")) "alice" rfl

/-- Claim C6: on a `redis.Nil` miss with a successfully computing
callback (and a successful store write), `Remember` invokes the callback
exactly once, stores its serialized result under the (prefixed) key with
the given TTL, and returns that stored string. -/
theorem remember_miss_computes_and_stores (c : Cache) (st : RedisState) (k : String)
    (ttl : Int) (gv : GoVal) (s : String) (hget : c.Get st k = .error .redisNil)
    (hser : serializeResult gv = .ok s) (hset : st.setFault = none) :
    c.Remember st k ttl (.ok gv) =
        (.ok s, { st with store := (c.key k, s, ttl) :: st.store }, 1) ∧
      ((c.key k, s, ttl) :: st.store).lookup (c.key k) = some (s, ttl) := by
  refine ⟨?_, by simp⟩
  simp [Cache.Remember, hget, hser, Cache.Set, RedisState.set, hset]

theorem remember_miss_computes_and_stores_witness :
    Cache.Remember ⟨"app:"⟩ ⟨[], none, none⟩ "user:1" 60 (.ok (GoVal.str "alice")) =
        (.ok "alice", ⟨[("app:user:1", "alice", (60 : Int))], none, none⟩, 1) ∧
      List.lookup "app:user:1" [("app:user:1", "alice", (60 : Int))] =
        some ("alice", (60 : Int)) :=
  remember_miss_computes_and_stores ⟨"app:"⟩ ⟨[], none, none⟩ "user:1" 60
    (GoVal.str "alice") "alice" rfl rfl rfl

/-- Claim C7: when the initial read fails with an error other than
`redis.Nil`, `Remember` returns that error, never invokes the compute
callback, and writes nothing to the cache. -/
theorem remember_propagates_read_error (c : Cache) (st : RedisState) (k : String)
    (ttl : Int) (fn : Except GoError GoVal) (e : GoError)
    (hget : c.Get st k = .error e) (hne : e ≠ GoError.redisNil) :
    c.Remember st k ttl fn = (.error e, st, 0) := by
  simp [Cache.Remember, hget, hne]

theorem remember_propagates_read_error_witness :
    Cache.Remember ⟨""⟩ ⟨[], some "connection refused", none⟩ "user:1" 60
        (.ok (GoVal.str "alice")) =
      (.error (GoError.simple "connection refused"), ⟨[], some "connection refused", none⟩, 0) :=
  remember_propagates_read_error ⟨""⟩ ⟨[], some "connection refused", none⟩ "user:1" 60
    (.ok (GoVal.str "alice")) (GoError.simple "connection refused") rfl (by decide)

/-- Claim C8: if a first `Remember` call returns a value `v` (nil
error), it invoked the compute callback at most once, and a second call
on the resulting state with the same key returns the same `v` straight
from the cache, invoking the callback zero further times. -/
theorem remember_twice_computes_once (c : Cache) (st st1 : RedisState) (k : String)
    (ttl : Int) (fn : Except GoError GoVal) (v : String) (n : Nat)
    (h : c.Remember st k ttl fn = (.ok v, st1, n)) :
    n ≤ 1 ∧ c.Remember st1 k ttl fn = (.ok v, st1, 0) := by
  have hmain : ∀ st' : RedisState, c.Get st' k = .ok v →
      c.Remember st' k ttl fn = (.ok v, st', 0) := by
    intro st' hget
    simp [Cache.Remember, hget]
  unfold Cache.Remember at h
  cases hget : c.Get st k with
  | ok val =>
    rw [hget] at h
    simp only [Prod.mk.injEq, Except.ok.injEq] at h
    obtain ⟨hv, hst, hn⟩ := h
    subst hv; subst hst; subst hn
    exact ⟨Nat.zero_le 1, hmain st hget⟩
  | error err =>
    rw [hget] at h
    by_cases hne : err = GoError.redisNil
    · subst hne
      simp only [bne_self_eq_false, Bool.false_eq_true, if_false] at h
      cases hfn : fn with
      | error e => rw [hfn] at h; simp at h
      | ok gv =>
        simp only [hfn] at h
        rw [hfn] at hmain
        cases hser : serializeResult gv with
        | error e => simp only [hser] at h; simp at h
        | ok s =>
          simp only [hser] at h
          unfold Cache.Set RedisState.set at h
          cases hsf : st.setFault with
          | some e => simp only [hsf] at h; simp at h
          | none =>
            simp only [hsf] at h
            simp only [Prod.mk.injEq, Except.ok.injEq] at h
            obtain ⟨hv, hst, hn⟩ := h
            subst hv
            subst hn
            refine ⟨Nat.le_refl 1, hmain st1 ?_⟩
            unfold Cache.Get RedisState.get at hget ⊢
            cases hgf : st.getFault with
            | some m => simp only [hgf] at hget; simp at hget
            | none =>
              rw [← hst]
              simp [hgf, List.lookup]
    · simp only [bne_iff_ne, ne_eq, hne, not_false_eq_true, if_true] at h
      simp at h

theorem remember_twice_computes_once_witness :
    1 ≤ 1 ∧
      Cache.Remember ⟨""⟩ ⟨[("k", "x", 5)], none, none⟩ "k" 5 (.ok (GoVal.str "x")) =
        (.ok "x", ⟨[("k", "x", 5)], none, none⟩, 0) :=
  remember_twice_computes_once ⟨""⟩ ⟨[], none, none⟩ ⟨[("k", "x", 5)], none, none⟩ "k" 5
    (.ok (GoVal.str "x")) "x" 1 (by rfl)

/-!
## Template scaffolding `Apply` (cli generator)

`Apply` walks an embedded filesystem, renders each file through
`text/template`, and writes the output under `targetDir` — except that
output which is empty after `strings.TrimSpace` is skipped.  The
embedded filesystem is the list of entries in walk order; the
`text/template` engine (a wrapped library) is the parameter `render`,
standing for `template.New(base).Parse(content)` followed by
`Execute(_, data)` with the fixed `TemplateData`.  `filepath`
operations are modelled for the clean slash-separated paths the
embedded FS provides.  Alongside the resulting filesystem, the
embedding records, per visited entry, the filesystem operations
performed for it. -/

/-- `filepath.Join(a, b)` for the clean paths arising here. -/
def pathJoin (a b : String) : String :=
  if a = "" then b else a ++ "/" ++ b

/-- `filepath.Rel(root, p)` for the walk's paths, which lie under
`root` (or `root = "."`, in which case `p` is already relative). -/
def pathRel (root p : String) : String :=
  if root = "." then p else p.drop (root.length + 1)

/-- `filepath.Dir(p)` for clean paths: everything before the last
slash, or `"."` when there is none. -/
def pathDir (p : String) : String :=
  match p.toList.reverse.dropWhile (fun c => c != '/') with
  | [] => "."
  | _ :: rest => String.mk rest.reverse

/-- The ASCII white space recognised by Go's `unicode.IsSpace` (the
templates here are ASCII): space, tab, newline, vertical tab, form
feed, carriage return. -/
def goIsSpace (c : Char) : Bool :=
  c == ' ' || c == '\t' || c == '\n' || c == Char.ofNat 11 || c == Char.ofNat 12 || c == '\r'

/-- `strings.TrimSpace`. -/
def goTrimSpace (s : String) : String :=
  String.mk (((s.toList.dropWhile goIsSpace).reverse.dropWhile goIsSpace).reverse)

/-- `strings.TrimSuffix`. -/
def goTrimSuffix (s suf : String) : String :=
  if suf.toList.isSuffixOf s.toList then
    String.mk (s.toList.take (s.toList.length - suf.toList.length))
  else s

/-- An entry of the embedded filesystem, in walk order. -/
structure FsEntry where
  path : String
  isDir : Bool
  content : String
deriving DecidableEq, Repr

/-- A filesystem effect of `Apply`. -/
inductive FsOp where
  | mkdirAll (dir : String)
  | writeFile (p : String) (content : String)
deriving DecidableEq, Repr

/-- The target filesystem: written files and created directories. -/
structure FileSys where
  files : List (String × String)
  dirs : List String
deriving DecidableEq, Repr

/-- The walk body of `Apply` (part_005, lines 17-64), one entry at a
time, accumulating the filesystem and the per-entry operation trace. -/
def applyWalk (render : String → String → Except GoError String)
    (root targetDir : String) :
    List FsEntry → FileSys → List (String × List FsOp) →
    Except GoError (FileSys × List (String × List FsOp))
  | [], fsys, tr => .ok (fsys, tr)
  | e :: rest, fsys, tr =>
    if e.isDir then applyWalk render root targetDir rest fsys (tr ++ [(e.path, [])])
    else
      let relPath := pathRel root e.path
      let outPath := goTrimSuffix relPath ".tmpl"
      let dest := pathJoin targetDir outPath
      match render e.path e.content with
      | .error err =>
        .error (.wrapf ("execute template " ++ e.path ++ ": " ++ err.message) err)
      | .ok rendered =>
        if goTrimSpace rendered = "" then
          applyWalk render root targetDir rest fsys (tr ++ [(e.path, [])])
        else
          applyWalk render root targetDir rest
            { files := (dest, rendered) :: fsys.files, dirs := pathDir dest :: fsys.dirs }
            (tr ++ [(e.path, [.mkdirAll (pathDir dest), .writeFile dest rendered])])

/-- Shallow embedding of `Apply` (part_005, lines 16-65). -/
def Apply (render : String → String → Except GoError String) (efs : List FsEntry)
    (root targetDir : String) (fsys : FileSys) :
    Except GoError (FileSys × List (String × List FsOp)) :=
  applyWalk render root targetDir efs fsys []

/-- The operations `Apply` performs for one visited entry. -/
def entryOps (render : String → String → Except GoError String)
    (root targetDir : String) (e : FsEntry) : List FsOp :=
  if e.isDir then []
  else
    let dest := pathJoin targetDir (goTrimSuffix (pathRel root e.path) ".tmpl")
    match render e.path e.content with
    | .error _ => []
    | .ok rendered =>
      if goTrimSpace rendered = "" then []
      else [.mkdirAll (pathDir dest), .writeFile dest rendered]

theorem applyWalk_trace (render : String → String → Except GoError String)
    (root targetDir : String) (efs : List FsEntry) :
    ∀ (fsys fsys1 : FileSys) (tr tr1 : List (String × List FsOp)),
      applyWalk render root targetDir efs fsys tr = .ok (fsys1, tr1) →
      tr1 = tr ++ efs.map (fun e => (e.path, entryOps render root targetDir e)) := by
  induction efs with
  | nil =>
    intro fsys fsys1 tr tr1 h
    simp only [applyWalk, Except.ok.injEq, Prod.mk.injEq] at h
    simp [h.2]
  | cons e rest ih =>
    intro fsys fsys1 tr tr1 h
    simp only [applyWalk] at h
    by_cases hd : e.isDir = true
    · rw [if_pos hd] at h
      have := ih _ _ _ _ h
      simp [this, entryOps, hd]
    · rw [if_neg hd] at h
      cases hr : render e.path e.content with
      | error err => simp only [hr] at h; simp at h
      | ok rendered =>
        simp only [hr] at h
        by_cases hw : goTrimSpace rendered = ""
        · rw [if_pos hw] at h
          have := ih _ _ _ _ h
          simp [this, entryOps, hd, hr, hw]
        · rw [if_neg hw] at h
          have := ih _ _ _ _ h
          simp [this, entryOps, hd, hr, hw]

/-- Claim C9: in a successful `Apply` run, a visited template whose
rendered output is empty or whitespace-only causes no filesystem
operation at all (no file written, no directory created for it), while
every other visited template gets its directory created and its
rendered output written to its destination path. -/
theorem apply_skips_whitespace_renders (render : String → String → Except GoError String)
    (efs : List FsEntry) (root targetDir : String) (fsys fsys1 : FileSys)
    (tr : List (String × List FsOp))
    (happly : Apply render efs root targetDir fsys = .ok (fsys1, tr)) :
    (∀ e ∈ efs, e.isDir = false → ∀ r, render e.path e.content = .ok r →
      goTrimSpace r = "" → (e.path, ([] : List FsOp)) ∈ tr) ∧
    (∀ e ∈ efs, e.isDir = false → ∀ r, render e.path e.content = .ok r →
      goTrimSpace r ≠ "" →
        (e.path,
          [FsOp.mkdirAll (pathDir (pathJoin targetDir (goTrimSuffix (pathRel root e.path) ".tmpl"))),
           FsOp.writeFile (pathJoin targetDir (goTrimSuffix (pathRel root e.path) ".tmpl")) r]) ∈
          tr) := by
  have htr := applyWalk_trace render root targetDir efs fsys fsys1 [] tr happly
  subst htr
  constructor
  · intro e he hd r hr hw
    simp only [List.nil_append]
    refine List.mem_map.mpr ⟨e, he, ?_⟩
    simp [entryOps, hd, hr, hw]
  · intro e he hd r hr hw
    simp only [List.nil_append]
    refine List.mem_map.mpr ⟨e, he, ?_⟩
    simp [entryOps, hd, hr, hw]

theorem apply_skips_whitespace_renders_witness :
    ("tpl/a.txt.tmpl", ([] : List FsOp)) ∈
        [("tpl/a.txt.tmpl", ([] : List FsOp)),
         ("tpl/b.txt.tmpl", [FsOp.mkdirAll "out", FsOp.writeFile "out/b.txt" "hi"])] ∧
      ("tpl/b.txt.tmpl", [FsOp.mkdirAll "out", FsOp.writeFile "out/b.txt" "hi"]) ∈
        [("tpl/a.txt.tmpl", ([] : List FsOp)),
         ("tpl/b.txt.tmpl", [FsOp.mkdirAll "out", FsOp.writeFile "out/b.txt" "hi"])] := by
  have h := apply_skips_whitespace_renders (fun _ c => Except.ok c)
    [⟨"tpl/a.txt.tmpl", false, "  "⟩, ⟨"tpl/b.txt.tmpl", false, "hi"⟩] "tpl" "out"
    ⟨[], []⟩ ⟨[("out/b.txt", "hi")], ["out"]⟩
    [("tpl/a.txt.tmpl", ([] : List FsOp)),
     ("tpl/b.txt.tmpl", [FsOp.mkdirAll "out", FsOp.writeFile "out/b.txt" "hi"])]
    (by rfl)
  exact ⟨h.1 ⟨"tpl/a.txt.tmpl", false, "  "⟩ (by simp) rfl "  " rfl (by rfl),
         h.2 ⟨"tpl/b.txt.tmpl", false, "hi"⟩ (by simp) rfl "hi" rfl (by decide)⟩

/-!
## State persistence `SaveState` / `LoadState` (state.go)

The filesystem is an association list from paths to file contents (the
most recent write first).  `os.UserConfigDir()` is the environment
field `configDir`; JSON marshalling and unmarshalling at the caller's
state type `T` are the parameters `marshalIndent` and `unmarshal`, and
`zero` is the Go zero value of `T`.  `os.MkdirAll` and `os.WriteFile`
are modelled as succeeding. -/

/-- The process environment seen by the state helpers. -/
structure StateEnv where
  configDir : Except GoError String

/-- `stateDir` (state.go): the config directory for the app. -/
def stateDir (env : StateEnv) (appName : String) : Except GoError String :=
  match env.configDir with
  | .error e => .error e
  | .ok d => .ok (pathJoin d appName)

/-- Shallow embedding of `SaveState` (state.go lines 145-166): marshal
the data and write it to `{configDir}/{appName}/{filename}`, returning
the updated filesystem. -/
def SaveState {T : Type} (env : StateEnv) (fs : List (String × String))
    (appName filename : String) (marshalIndent : T → Except GoError String) (data : T) :
    Except GoError (List (String × String)) :=
  match stateDir env appName with
  | .error e => .error (.wrapf ("get config dir: " ++ e.message) e)
  | .ok dir =>
    match marshalIndent data with
    | .error e => .error (.wrapf ("marshal state: " ++ e.message) e)
    | .ok content => .ok ((pathJoin dir filename, content) :: fs)

/-- `StatePath` (state.go lines 210-216). -/
def StatePath (env : StateEnv) (appName filename : String) : String :=
  match stateDir env appName with
  | .error _ => ""
  | .ok dir => pathJoin dir filename

/-- `os.ReadFile` on the modelled filesystem: the sentinel
`errNotExist` when the path has no file. -/
def readFile (fs : List (String × String)) (path : String) : Except GoError String :=
  match fs.lookup path with
  | some content => .ok content
  | none => .error .errNotExist

/-- Shallow embedding of `LoadState` (state.go lines 182-200): read the
state file and unmarshal it; `os.ErrNotExist` exactly when the file is
missing.  Returns the Go pair `(T, error)`. -/
def LoadState {T : Type} (env : StateEnv) (fs : List (String × String))
    (appName filename : String) (unmarshal : String → Except GoError T) (zero : T) :
    T × Option GoError :=
  let path := StatePath env appName filename
  match readFile fs path with
  | .error e =>
    if e.is .errNotExist then (zero, some .errNotExist)
    else (zero, some (.wrapf ("read state file: " ++ e.message) e))
  | .ok content =>
    match unmarshal content with
    | .error e => (zero, some (.wrapf ("unmarshal state: " ++ e.message) e))
    | .ok result => (result, none)

/-- Claim C10: when the config directory resolves and the value's JSON
marshalling round-trips, a successful `SaveState` followed by
`LoadState` of the same app name and filename returns the saved value
with a nil error; and when no state file exists at the path,
`LoadState` returns the zero value together with `os.ErrNotExist`. -/
theorem saveState_loadState_roundtrip {T : Type} (env : StateEnv) (d : String)
    (fs : List (String × String)) (appName filename : String)
    (marshalIndent : T → Except GoError String) (unmarshal : String → Except GoError T)
    (zero v : T) (content : String) (hcfg : env.configDir = .ok d)
    (hm : marshalIndent v = .ok content) (hu : unmarshal content = .ok v) :
    (∀ fs1, SaveState env fs appName filename marshalIndent v = .ok fs1 →
        LoadState env fs1 appName filename unmarshal zero = (v, none)) ∧
      (fs.lookup (StatePath env appName filename) = none →
        LoadState env fs appName filename unmarshal zero = (zero, some GoError.errNotExist)) := by
  have hdir : stateDir env appName = .ok (pathJoin d appName) := by
    simp [stateDir, hcfg]
  constructor
  · intro fs1 hsave
    simp only [SaveState, hdir, hm, Except.ok.injEq] at hsave
    subst hsave
    simp [LoadState, StatePath, hdir, readFile, List.lookup, hu]
  · intro hnone
    simp [LoadState, readFile, hnone, GoError.is]

theorem saveState_loadState_roundtrip_witness :
    LoadState ⟨Except.ok "/cfg"⟩ [("/cfg/myapp/state.json", "hello")] "myapp" "state.json"
        (fun s => Except.ok s) "" = ("hello", none) ∧
      LoadState ⟨Except.ok "/cfg"⟩ [] "myapp" "state.json" (fun s => Except.ok s) "" =
        ("", some GoError.errNotExist) := by
  have h := saveState_loadState_roundtrip ⟨Except.ok "/cfg"⟩ "/cfg" [] "myapp" "state.json"
    (fun s => Except.ok s) (fun s => Except.ok s) "" "hello" "hello" rfl rfl rfl
  exact ⟨h.1 [("/cfg/myapp/state.json", "hello")] rfl, h.2 rfl⟩
